import Mathlib

/-!
Shallow embedding of the visitor-map subsystem of the repository.

Two implementations coexist in the repository and are both embedded here:

* the "basic variant" (class `PrivacyCompliantVisitorMap`): a flat list of
  location entries in local storage, with city+country 24-hour deduplication
  and a 1000-entry cap (`storeVisitorData`, `getStoredData`,
  `getLocationFromTimezone`);
* the "mode-based variant" (module `VisitorMap` in `visitor-map.js`): a
  structured record `{ countries, fuzzyLocations, ephemeralVisitors }`
  together with a privacy-mode state machine
  (`trackCountryOnly`, `trackFuzzyLocation`, `trackEphemeral`,
  `trackCurrentVisitor`, `changeMode`, `acceptCookies`, `rejectCookies`,
  `loadVisitorData`, `saveVisitorData`, `getStats`, `updateUI`).

Numbers that the JavaScript code manipulates here are exact decimals and
small integers, so they are embedded as `Rat` (coordinates) and `Int`
(epoch-millisecond timestamps).  Browser storage is embedded explicitly:
`localStorage` / `sessionStorage` cells are fields of an explicit state
record, and "serialize to the visitor-data blob" is modelled by copying the
in-memory structure into the `storedBlob` field.
-/

/-- JavaScript `Math.round`: rounds half away from zero towards `+∞`
(`Math.round (x)` is `⌊x + 0.5⌋`). -/
def jsRound (q : Rat) : Int := ⌊q + 1/2⌋

/-- Rounding to one decimal place as the code writes it:
`Math.round(x * 10) / 10` (with `FUZZY_PRECISION = 1`). -/
def roundTo1 (q : Rat) : Rat := (jsRound (q * 10) : Rat) / 10

/-- A rational has at most one decimal place: ten times it is an integer. -/
def OneDecimal (q : Rat) : Prop := (q * 10).den = 1

/-! ## Basic variant (`PrivacyCompliantVisitorMap`) -/

/-- One value of the `timezoneMap` table in `getLocationFromTimezone`. -/
structure TzEntry where
  city : String
  country : String
  countryCode : String
  lat : Rat
  lon : Rat
deriving Repr, DecidableEq

/-- A location object as produced by `getLocationFromTimezone` (or by the
commented-out API path): the fields of a `TzEntry` plus a timestamp and a
detection method (`detectionMethod` is absent, i.e. `none`, on the API
path, where JavaScript leaves the property `undefined`). -/
structure Location where
  city : String
  country : String
  countryCode : String
  lat : Rat
  lon : Rat
  timestamp : Int
  detectionMethod : Option String
deriving Repr, DecidableEq

/-- An anonymized entry as built at the top of `storeVisitorData`. -/
structure Entry where
  city : String
  country : String
  countryCode : String
  lat : Rat
  lon : Rat
  timestamp : Int
  method : String
deriving Repr, DecidableEq

/-- The `timezoneMap` table of `getLocationFromTimezone`, copied verbatim
from the source (an object literal; embedded as an association list in key
insertion order). -/
def timezoneMap : List (String × TzEntry) :=
  [ ("America/New_York", ⟨"New York", "United States", "US", 40.7, -74.0⟩),
    ("America/Chicago", ⟨"Chicago", "United States", "US", 41.9, -87.6⟩),
    ("America/Denver", ⟨"Denver", "United States", "US", 39.7, -104.9⟩),
    ("America/Los_Angeles", ⟨"Los Angeles", "United States", "US", 34.1, -118.2⟩),
    ("America/Toronto", ⟨"Toronto", "Canada", "CA", 43.7, -79.4⟩),
    ("Europe/London", ⟨"London", "United Kingdom", "GB", 51.5, -0.1⟩),
    ("Europe/Paris", ⟨"Paris", "France", "FR", 48.9, 2.4⟩),
    ("Europe/Berlin", ⟨"Berlin", "Germany", "DE", 52.5, 13.4⟩),
    ("Europe/Madrid", ⟨"Madrid", "Spain", "ES", 40.4, -3.7⟩),
    ("Europe/Rome", ⟨"Rome", "Italy", "IT", 41.9, 12.5⟩),
    ("Asia/Tokyo", ⟨"Tokyo", "Japan", "JP", 35.7, 139.7⟩),
    ("Asia/Shanghai", ⟨"Shanghai", "China", "CN", 31.2, 121.5⟩),
    ("Asia/Seoul", ⟨"Seoul", "South Korea", "KR", 37.6, 127.0⟩),
    ("Asia/Singapore", ⟨"Singapore", "Singapore", "SG", 1.3, 103.8⟩),
    ("Asia/Dubai", ⟨"Dubai", "UAE", "AE", 25.3, 55.3⟩),
    ("Asia/Kolkata", ⟨"Mumbai", "India", "IN", 19.1, 72.9⟩),
    ("Australia/Sydney", ⟨"Sydney", "Australia", "AU", -33.9, 151.2⟩),
    ("Pacific/Auckland", ⟨"Auckland", "New Zealand", "NZ", -36.8, 174.8⟩),
    ("America/Sao_Paulo", ⟨"São Paulo", "Brazil", "BR", -23.5, -46.6⟩),
    ("America/Mexico_City", ⟨"Mexico City", "Mexico", "MX", 19.4, -99.1⟩),
    ("Africa/Johannesburg", ⟨"Johannesburg", "South Africa", "ZA", -26.2, 28.0⟩),
    ("Africa/Cairo", ⟨"Cairo", "Egypt", "EG", 30.0, 31.2⟩) ]

/-- `getLocationFromTimezone`: look the browser timezone up in
`timezoneMap`; on a hit, spread the table entry and add
`timestamp: Date.now()` and `detectionMethod: 'timezone'`; otherwise
return `null`.  The browser timezone and the current clock are explicit
parameters here (the `language` variable of the source is read but never
used, so it has no counterpart). -/
def getLocationFromTimezone (tz : String) (now : Int) : Option Location :=
  match timezoneMap.lookup tz with
  | some info =>
      some { city := info.city, country := info.country,
             countryCode := info.countryCode, lat := info.lat, lon := info.lon,
             timestamp := now, detectionMethod := some "timezone" }
  | none => none

/-- The entry object built at the top of `storeVisitorData`:
`method` defaults to `'api'` when `location.detectionMethod` is absent. -/
def mkEntry (location : Location) : Entry :=
  { city := location.city, country := location.country,
    countryCode := location.countryCode,
    lat := location.lat, lon := location.lon,
    timestamp := location.timestamp,
    method := location.detectionMethod.getD "api" }

/-- The duplicate test of `storeVisitorData`: some stored entry has the
same city and country and was stored less than 24 hours before the current
clock (`Date.now() - v.timestamp < 24 * 60 * 60 * 1000`). -/
def isDuplicate (now : Int) (stored : List Entry) (entry : Entry) : Bool :=
  stored.any fun v =>
    v.city == entry.city &&
    (v.country == entry.country &&
      decide (now - v.timestamp < 24 * 60 * 60 * 1000))

/-- `storeVisitorData`: build the anonymized entry; if it is a duplicate
(same city+country within 24 hours) leave the stored list alone, else push
it and truncate to the last 1000 entries (`slice(-1000)`, i.e. drop the
oldest).  The stored list is passed and returned explicitly; the
`localStorage.setItem` call is the write-back of the returned list. -/
def storeVisitorData (now : Int) (stored : List Entry) (location : Location) :
    List Entry :=
  let entry := mkEntry location
  if isDuplicate now stored entry then stored
  else
    let d := stored ++ [entry]
    if d.length > 1000 then d.drop (d.length - 1000) else d

/-- Run a sequence of `storeVisitorData` appends, starting from a given
stored list; each append comes with its own `Date.now()` clock value. -/
def runBasic (ops : List (Int × Location)) (stored : List Entry) : List Entry :=
  ops.foldl (fun st p => storeVisitorData p.1 st p.2) stored

/-- A successfully parsed JSON value, classified by the only property the
basic variant's shape contract cares about: either an array of entries, or
some other JSON value (object, number, string, boolean, null - its content
is irrelevant, only that it is not an array). -/
inductive BJson where
  | arr (entries : List Entry)
  | other
deriving Repr, DecidableEq

/-- Outcome of `JSON.parse` on a present blob: a parse error (the string is
not valid JSON) or a parsed value. -/
inductive BParse where
  | err
  | ok (j : BJson)
deriving Repr, DecidableEq

/-- `getStoredData`: `localStorage.getItem` yields `null` (modelled `none`)
or a string whose parse outcome is given; `return data ? JSON.parse(data) : []`
inside `try`, with `catch` returning `[]`.  A parse error is caught and
becomes the empty list; a successfully parsed value is returned as-is,
whatever its shape. -/
def getStoredData : Option BParse → BJson
  | none => BJson.arr []
  | some BParse.err => BJson.arr []
  | some (BParse.ok j) => j

/-! ## Mode-based variant (`VisitorMap` in `visitor-map.js`) -/

/-- The four privacy modes.  The source keeps the mode as one of the
strings `'country' | 'fuzzy' | 'ephemeral' | 'disabled'` (the UI selector
and `loadPreferences` only ever supply these four). -/
inductive Mode where
  | country
  | fuzzy
  | ephemeral
  | disabled
deriving Repr, DecidableEq

/-- A `visitorData.countries` aggregate value. -/
structure CountryAgg where
  code : String
  name : String
  count : Nat
deriving Repr, DecidableEq

/-- A `visitorData.fuzzyLocations` list element. -/
structure FuzzyEntry where
  lat : Rat
  lon : Rat
  country : String
  timestamp : Int
deriving Repr, DecidableEq

/-- A `visitorData.ephemeralVisitors` list element. -/
structure EphemeralEntry where
  country : String
  countryName : String
  city : String
  timestamp : Int
deriving Repr, DecidableEq

/-- The `visitorData` structure.  The JavaScript `countries` object maps
country codes to aggregates; a JavaScript object with string keys is
embedded as an association list in key insertion order (new keys are
appended at the end, which is the enumeration order of `Object.keys` /
`Object.values`). -/
structure VisitorData where
  countries : List CountryAgg
  fuzzyLocations : List FuzzyEntry
  ephemeralVisitors : List EphemeralEntry
deriving Repr, DecidableEq

/-- `{ countries: {}, fuzzyLocations: [], ephemeralVisitors: [] }`. -/
def emptyVisitorData : VisitorData :=
  { countries := [], fuzzyLocations := [], ephemeralVisitors := [] }

/-- The response body of the geolocation API fetch, with the fields the
code reads.  `none` stands for an absent (or empty, hence falsy) string
field. -/
structure GeoData where
  country_code : Option String
  country : Option String
  city : Option String
  latitude : Rat
  longitude : Rat
deriving Repr, DecidableEq

/-- The `COUNTRY_NAMES` table (ISO 3166-1 alpha-2), copied verbatim. -/
def COUNTRY_NAMES : List (String × String) :=
  [ ("US", "United States"), ("GB", "United Kingdom"), ("CA", "Canada"),
    ("AU", "Australia"), ("DE", "Germany"), ("FR", "France"), ("ES", "Spain"),
    ("IT", "Italy"), ("NL", "Netherlands"), ("BE", "Belgium"),
    ("CH", "Switzerland"), ("AT", "Austria"), ("SE", "Sweden"),
    ("NO", "Norway"), ("DK", "Denmark"), ("FI", "Finland"), ("PL", "Poland"),
    ("CZ", "Czech Republic"), ("IE", "Ireland"), ("PT", "Portugal"),
    ("GR", "Greece"), ("JP", "Japan"), ("CN", "China"), ("KR", "South Korea"),
    ("IN", "India"), ("BR", "Brazil"), ("MX", "Mexico"), ("AR", "Argentina"),
    ("CL", "Chile"), ("CO", "Colombia"), ("PE", "Peru"), ("ZA", "South Africa"),
    ("EG", "Egypt"), ("NG", "Nigeria"), ("KE", "Kenya"), ("RU", "Russia"),
    ("UA", "Ukraine"), ("TR", "Turkey"), ("IL", "Israel"),
    ("SA", "Saudi Arabia"), ("AE", "United Arab Emirates"),
    ("SG", "Singapore"), ("MY", "Malaysia"), ("TH", "Thailand"),
    ("ID", "Indonesia"), ("PH", "Philippines"), ("VN", "Vietnam"),
    ("NZ", "New Zealand") ]

/-- `data.country_code || data.country || 'Unknown'` (JavaScript `||`
falls through on absent/empty fields). -/
def countryCodeOf (data : GeoData) : String :=
  ((data.country_code).orElse (fun _ => data.country)).getD "Unknown"

/-- `COUNTRY_NAMES[countryCode] || countryCode`. -/
def countryNameOf (countryCode : String) : String :=
  (COUNTRY_NAMES.lookup countryCode).getD countryCode

/-- `data.city || 'Unknown City'`. -/
def cityOf (data : GeoData) : String := (data.city).getD "Unknown City"

/-- The country-counter update shared by `trackCountryOnly` and
`trackFuzzyLocation`: if the code has no aggregate yet, install one with
`count: 0` and the resolved name, then increment `count`.  On the
association-list embedding of the JavaScript object this bumps the (unique)
existing key in place, or appends a fresh aggregate with count 1. -/
def bumpCountry : List CountryAgg → String → String → List CountryAgg
  | [], code, name => [{ code := code, name := name, count := 1 }]
  | c :: rest, code, name =>
      if c.code == code then { c with count := c.count + 1 } :: rest
      else c :: bumpCountry rest code name

/-- `visitorData.fuzzyLocations` cap: `if (length > 1000) slice(-1000)`
(keep the most recent 1000, dropping the oldest). -/
def capFuzzy (l : List FuzzyEntry) : List FuzzyEntry :=
  if l.length > 1000 then l.drop (l.length - 1000) else l

/-- The whole mutable environment of the module: the module-level state
variables (`currentMode`, `hasConsent`, module `visitorData`), the
session-storage flag `current_visitor_tracked`, and the three localStorage
cells (`visitor_map_data` as a parsed snapshot, `visitor_privacy_mode`,
`visitor_consent`). -/
structure MapState where
  mode : Mode
  hasConsent : Bool
  sessionTracked : Bool
  data : VisitorData
  storedBlob : Option VisitorData
  storedMode : Option Mode
  storedConsent : Option Bool
deriving Repr, DecidableEq

/-- `saveVisitorData`: `localStorage.setItem(STORAGE_KEY,
JSON.stringify(visitorData))` - the entire `visitorData` structure, all
three collections included, is serialized into the blob. -/
def saveVisitorData (s : MapState) : MapState :=
  { s with storedBlob := some s.data }

/-- `trackCountryOnly`: resolve the code and name, bump the country
counter, and save to localStorage. -/
def trackCountryOnly (data : GeoData) (s : MapState) : MapState :=
  let countryCode := countryCodeOf data
  let countryName := countryNameOf countryCode
  let d := { s.data with
             countries := bumpCountry s.data.countries countryCode countryName }
  saveVisitorData { s with data := d }

/-- `trackFuzzyLocation`: round both coordinates with
`Math.round(x * 10^FUZZY_PRECISION) / 10^FUZZY_PRECISION`, push the fuzzy
entry, bump the country counter, truncate the fuzzy list to the last 1000,
and save to localStorage. -/
def trackFuzzyLocation (data : GeoData) (now : Int) (s : MapState) : MapState :=
  let countryCode := countryCodeOf data
  let countryName := countryNameOf countryCode
  let fuzzyLat := roundTo1 data.latitude
  let fuzzyLon := roundTo1 data.longitude
  let d := { s.data with
             fuzzyLocations :=
               capFuzzy (s.data.fuzzyLocations ++
                 [{ lat := fuzzyLat, lon := fuzzyLon, country := countryCode,
                    timestamp := now }]),
             countries := bumpCountry s.data.countries countryCode countryName }
  saveVisitorData { s with data := d }

/-- `trackEphemeral`: push the entry onto the in-memory
`ephemeralVisitors` list; deliberately no `saveVisitorData` call. -/
def trackEphemeral (data : GeoData) (now : Int) (s : MapState) : MapState :=
  let countryCode := countryCodeOf data
  let countryName := countryNameOf countryCode
  let city := cityOf data
  { s with data :=
      { s.data with
        ephemeralVisitors := s.data.ephemeralVisitors ++
          [{ country := countryCode, countryName := countryName, city := city,
             timestamp := now }] } }

/-- `trackCurrentVisitor` (successful-fetch path): return unchanged when
the mode is `disabled` or consent is missing, or when the session flag is
already set; otherwise dispatch on the mode and then set the session flag.
The fetched response body and the clock are explicit parameters; the
failed-fetch path changes no state and needs no counterpart. -/
def trackVisitor (data : GeoData) (now : Int) (s : MapState) : MapState :=
  if s.mode = Mode.disabled ∨ s.hasConsent = false then s
  else if s.sessionTracked then s
  else
    let s1 :=
      match s.mode with
      | Mode.country => trackCountryOnly data s
      | Mode.fuzzy => trackFuzzyLocation data now s
      | Mode.ephemeral => trackEphemeral data now s
      | Mode.disabled => s
    { s1 with sessionTracked := true }

/-- `changeMode`: set and persist the new mode; entering `disabled`
removes the session flag; entering any other mode with consent removes the
session flag and re-runs `trackCurrentVisitor`. -/
def changeMode (newMode : Mode) (data : GeoData) (now : Int) (s : MapState) :
    MapState :=
  let s1 := { s with mode := newMode, storedMode := some newMode }
  let s2 :=
    if newMode = Mode.disabled then { s1 with sessionTracked := false } else s1
  if newMode ≠ Mode.disabled ∧ s.hasConsent = true then
    trackVisitor data now { s2 with sessionTracked := false }
  else s2

/-- `acceptCookies`: grant and persist consent, then track. -/
def acceptCookies (data : GeoData) (now : Int) (s : MapState) : MapState :=
  trackVisitor data now { s with hasConsent := true, storedConsent := some true }

/-- `rejectCookies`: withdraw consent, persist `visitor_consent = 'false'`
and `visitor_privacy_mode = 'disabled'`, and set the current mode to
`disabled`. -/
def rejectCookies (s : MapState) : MapState :=
  { s with hasConsent := false, storedConsent := some false,
           storedMode := some Mode.disabled, mode := Mode.disabled }

/-- A fresh page session before any tracking: empty in-memory data, no
session flag, nothing persisted yet; mode and consent as given. -/
def initState (m : Mode) (consent : Bool) : MapState :=
  { mode := m, hasConsent := consent, sessionTracked := false,
    data := emptyVisitorData, storedBlob := none, storedMode := none,
    storedConsent := none }

/-- The user-driven events that mutate the store within one session. -/
inductive Op where
  | track (data : GeoData) (now : Int)
  | change (newMode : Mode) (data : GeoData) (now : Int)
  | accept (data : GeoData) (now : Int)
  | reject
deriving Repr, DecidableEq

/-- Apply one event to the state. -/
def applyOp (s : MapState) : Op → MapState
  | Op.track data now => trackVisitor data now s
  | Op.change m data now => changeMode m data now s
  | Op.accept data now => acceptCookies data now s
  | Op.reject => rejectCookies s

/-- Run a finite sequence of events. -/
def run (ops : List Op) (s : MapState) : MapState := ops.foldl applyOp s

/-- Outcome of `JSON.parse` on the mode-based variant's saved blob:
a parse error; a parsed non-object primitive (`null`, number, string,
boolean - under `'use strict'` the subsequent property assignments throw a
`TypeError`, which the surrounding `catch` turns into a reset); or a parsed
object carrying an optional value for each of the three expected fields. -/
inductive MParse where
  | err
  | prim
  | obj (countries : Option (List CountryAgg))
        (fuzzyLocations : Option (List FuzzyEntry))
        (ephemeralVisitors : Option (List EphemeralEntry))
deriving Repr, DecidableEq

/-- `loadVisitorData`: when the storage cell is absent the module variable
keeps its previous (initial, empty) value; when the blob parses to an
object, each missing field is installed with its empty default; a parse
error or a primitive (whose property assignment throws) is caught and
resets the structure to the empty default. -/
def loadVisitorData (prev : VisitorData) : Option MParse → VisitorData
  | none => prev
  | some MParse.err => emptyVisitorData
  | some MParse.prim => emptyVisitorData
  | some (MParse.obj c f e) =>
      { countries := c.getD [], fuzzyLocations := f.getD [],
        ephemeralVisitors := e.getD [] }

/-- The statistics object returned by the public `getStats`: the sum of
the persisted country counts and the number of country aggregates,
whatever the current mode. -/
structure Stats where
  totalVisitors : Nat
  uniqueCountries : Nat
  mode : Mode
  hasConsent : Bool
deriving Repr, DecidableEq

/-- `getStats` of the public API. -/
def getStats (s : MapState) : Stats :=
  { totalVisitors := (s.data.countries.map (fun c => c.count)).sum,
    uniqueCountries := s.data.countries.length,
    mode := s.mode,
    hasConsent := s.hasConsent }

/-- The `(totalVisitors, uniqueCountries)` pair that `updateUI` writes
into the DOM: country-counter based for `country` and `fuzzy`, computed
from the in-memory ephemeral list for `ephemeral` (with unique countries
counted through a `Set`), and `(0, 0)` for `disabled`. -/
def uiTotals (s : MapState) : Nat × Nat :=
  match s.mode with
  | Mode.country => ((s.data.countries.map (fun c => c.count)).sum,
                     s.data.countries.length)
  | Mode.fuzzy => ((s.data.countries.map (fun c => c.count)).sum,
                   s.data.countries.length)
  | Mode.ephemeral => (s.data.ephemeralVisitors.length,
                       (s.data.ephemeralVisitors.map (fun v => v.country)).dedup.length)
  | Mode.disabled => (0, 0)

/-- The running count `getStats`-style readers see for one country code:
the `count` field of its aggregate, `0` if absent. -/
def countOf (cs : List CountryAgg) (code : String) : Nat :=
  ((cs.find? (fun c => c.code == code)).map (fun c => c.count)).getD 0

/-- A concrete geolocation response used by several concrete instances. -/
def geoFR : GeoData :=
  { country_code := some "FR", country := none, city := some "Paris",
    latitude := 48.86, longitude := 2.35 }

/-- A concrete state exhibiting the `getStats` / `updateUI` divergence in
ephemeral mode: one in-memory ephemeral visitor, no persisted aggregates. -/
def ephDivergeState : MapState :=
  { mode := Mode.ephemeral, hasConsent := true, sessionTracked := true,
    data := { countries := [], fuzzyLocations := [],
              ephemeralVisitors := [{ country := "FR", countryName := "France",
                                      city := "Paris", timestamp := 0 }] },
    storedBlob := none, storedMode := none, storedConsent := none }

/-- A concrete resolved location: what `getLocationFromTimezone` yields
for `Europe/Paris` at clock value 5. -/
def parisLoc : Location :=
  { city := "Paris", country := "France", countryCode := "FR",
    lat := 48.9, lon := 2.4, timestamp := 5,
    detectionMethod := some "timezone" }

/-- The fuzzy entry that one `trackFuzzyLocation` call pushes. -/
def fuzzyEntryOf (data : GeoData) (now : Int) : FuzzyEntry :=
  { lat := roundTo1 data.latitude, lon := roundTo1 data.longitude,
    country := countryCodeOf data, timestamp := now }

theorem jsRound_intCast (n : Int) : jsRound (n : Rat) = n := by
  unfold jsRound
  rw [add_comm, Int.floor_add_int]
  norm_num

theorem oneDecimal_roundTo1 (q : Rat) : OneDecimal (roundTo1 q) := by
  unfold OneDecimal roundTo1
  rw [div_mul_cancel₀]
  · exact Rat.den_intCast _
  · norm_num

theorem roundTo1_fix {q : Rat} (h : OneDecimal q) : roundTo1 q = q := by
  unfold OneDecimal at h
  unfold roundTo1 jsRound
  have h2 : ((q * 10).num : Rat) = q * 10 := by
    rw [← Rat.num_div_den (q * 10), h]
    simp
  rw [← h2, add_comm, Int.floor_add_int]
  norm_num
  rw [h2, mul_div_assoc]
  norm_num

theorem roundTo1_idem (q : Rat) : roundTo1 (roundTo1 q) = roundTo1 q :=
  roundTo1_fix (oneDecimal_roundTo1 q)

theorem lookup_mem {α β : Type} [BEq α] [LawfulBEq α] {l : List (α × β)}
    {k : α} {v : β} (h : l.lookup k = some v) : (k, v) ∈ l := by
  induction l with
  | nil => simp [List.lookup] at h
  | cons p t ih =>
    obtain ⟨a, b⟩ := p
    rw [List.lookup] at h
    cases hab : (k == a) with
    | true =>
      rw [hab] at h
      simp only [Option.some.injEq] at h
      subst h
      have : k = a := eq_of_beq hab
      subst this
      exact List.mem_cons_self _ _
    | false =>
      rw [hab] at h
      exact List.mem_cons_of_mem _ (ih h)

theorem timezoneMap_oneDecimal :
    ∀ p ∈ timezoneMap, OneDecimal p.2.lat ∧ OneDecimal p.2.lon := by
  intro p hp
  fin_cases hp <;> exact ⟨by norm_num [OneDecimal], by norm_num [OneDecimal]⟩

theorem countOf_bump (cs : List CountryAgg) (code name : String) :
    countOf (bumpCountry cs code name) code = countOf cs code + 1 := by
  induction cs with
  | nil => simp [bumpCountry, countOf]
  | cons c rest ih =>
    by_cases h : c.code == code
    · simp [bumpCountry, h, countOf, List.find?]
    · simp only [bumpCountry, h, Bool.false_eq_true, if_false]
      simp only [countOf, List.find?, h] at ih ⊢
      exact ih

theorem find?_bump_of_none {cs : List CountryAgg} {code : String}
    (name : String) (h : cs.find? (fun c => c.code == code) = none) :
    (bumpCountry cs code name).find? (fun c => c.code == code) =
      some { code := code, name := name, count := 1 } := by
  induction cs with
  | nil => simp [bumpCountry, List.find?]
  | cons c rest ih =>
    rw [List.find?] at h
    cases hc : (c.code == code) with
    | true => rw [hc] at h; simp at h
    | false =>
      rw [hc] at h
      simp only [bumpCountry, hc, Bool.false_eq_true, if_false]
      rw [List.find?, hc]
      exact ih h

theorem capFuzzy_eq_drop (l : List FuzzyEntry) :
    capFuzzy l = l.drop (l.length - 1000) := by
  unfold capFuzzy
  split
  · rfl
  · have : l.length - 1000 = 0 := by omega
    rw [this, List.drop_zero]

theorem capFuzzy_length_le {l : List FuzzyEntry} (h : l.length ≤ 1001) :
    (capFuzzy l).length ≤ 1000 := by
  unfold capFuzzy
  split
  · rw [List.length_drop]
    omega
  · omega

theorem capFuzzy_subset (l : List FuzzyEntry) : capFuzzy l ⊆ l := by
  unfold capFuzzy
  split
  · exact List.drop_subset _ _
  · exact List.Subset.refl _

theorem storeVisitorData_length_le {stored : List Entry} (now : Int)
    (location : Location) (h : stored.length ≤ 1000) :
    (storeVisitorData now stored location).length ≤ 1000 := by
  simp only [storeVisitorData]
  split
  · exact h
  · split
    · rw [List.length_drop]
      omega
    · simp only [List.length_append, List.length_singleton] at *
      omega

theorem runBasic_length_le (ops : List (Int × Location)) :
    ∀ stored : List Entry, stored.length ≤ 1000 →
      (runBasic ops stored).length ≤ 1000 := by
  induction ops with
  | nil => intro stored h; exact h
  | cons p t ih =>
    intro stored h
    exact ih _ (storeVisitorData_length_le p.1 p.2 h)

theorem trackVisitor_fuzzy_cases (data : GeoData) (now : Int) (s : MapState) :
    (trackVisitor data now s).data.fuzzyLocations = s.data.fuzzyLocations ∨
    (trackVisitor data now s).data.fuzzyLocations =
      capFuzzy (s.data.fuzzyLocations ++ [fuzzyEntryOf data now]) := by
  unfold trackVisitor
  split
  · left; rfl
  · split
    · left; rfl
    · cases hm : s.mode with
      | country => left; simp [hm, trackCountryOnly, saveVisitorData]
      | fuzzy =>
        right
        simp [hm, trackFuzzyLocation, saveVisitorData, fuzzyEntryOf]
      | ephemeral => left; simp [hm, trackEphemeral]
      | disabled => left; simp [hm]

theorem changeMode_data_cases (newMode : Mode) (data : GeoData) (now : Int)
    (s : MapState) :
    (changeMode newMode data now s).data.fuzzyLocations = s.data.fuzzyLocations ∨
    (changeMode newMode data now s).data.fuzzyLocations =
      capFuzzy (s.data.fuzzyLocations ++ [fuzzyEntryOf data now]) := by
  unfold changeMode
  dsimp only
  split <;> split
  all_goals
    first
      | exact trackVisitor_fuzzy_cases data now _
      | (left; rfl)

theorem applyOp_fuzzy_cases (s : MapState) (op : Op) :
    (applyOp s op).data.fuzzyLocations = s.data.fuzzyLocations ∨
    ∃ data now, (applyOp s op).data.fuzzyLocations =
      capFuzzy (s.data.fuzzyLocations ++ [fuzzyEntryOf data now]) := by
  cases op with
  | track data now =>
    rcases trackVisitor_fuzzy_cases data now s with h | h
    · exact Or.inl h
    · exact Or.inr ⟨data, now, h⟩
  | change m data now =>
    rcases changeMode_data_cases m data now s with h | h
    · exact Or.inl h
    · exact Or.inr ⟨data, now, h⟩
  | accept data now =>
    rcases trackVisitor_fuzzy_cases data now
        ({ s with hasConsent := true, storedConsent := some true }) with h | h
    · exact Or.inl h
    · exact Or.inr ⟨data, now, h⟩
  | reject => left; rfl

theorem applyOp_fuzzy_length_le {s : MapState} (op : Op)
    (h : s.data.fuzzyLocations.length ≤ 1000) :
    (applyOp s op).data.fuzzyLocations.length ≤ 1000 := by
  rcases applyOp_fuzzy_cases s op with heq | ⟨data, now, heq⟩
  · rw [heq]; exact h
  · rw [heq]
    apply capFuzzy_length_le
    simp only [List.length_append, List.length_singleton]
    omega

theorem run_fuzzy_length_le (ops : List Op) :
    ∀ s : MapState, s.data.fuzzyLocations.length ≤ 1000 →
      (run ops s).data.fuzzyLocations.length ≤ 1000 := by
  induction ops with
  | nil => intro s h; exact h
  | cons op t ih =>
    intro s h
    exact ih _ (applyOp_fuzzy_length_le op h)

theorem applyOp_fuzzy_rounded {s : MapState} (op : Op)
    (h : ∀ e ∈ s.data.fuzzyLocations, roundTo1 e.lat = e.lat ∧
           roundTo1 e.lon = e.lon) :
    ∀ e ∈ (applyOp s op).data.fuzzyLocations,
      roundTo1 e.lat = e.lat ∧ roundTo1 e.lon = e.lon := by
  rcases applyOp_fuzzy_cases s op with heq | ⟨data, now, heq⟩
  · rw [heq]; exact h
  · rw [heq]
    intro e he
    have := capFuzzy_subset _ he
    rcases List.mem_append.mp this with hmem | hmem
    · exact h e hmem
    · rcases List.mem_singleton.mp hmem with rfl
      exact ⟨roundTo1_idem _, roundTo1_idem _⟩

theorem run_fuzzy_rounded (ops : List Op) :
    ∀ s : MapState,
      (∀ e ∈ s.data.fuzzyLocations, roundTo1 e.lat = e.lat ∧
         roundTo1 e.lon = e.lon) →
      ∀ e ∈ (run ops s).data.fuzzyLocations,
        roundTo1 e.lat = e.lat ∧ roundTo1 e.lon = e.lon := by
  induction ops with
  | nil => intro s h; exact h
  | cons op t ih =>
    intro s h
    exact ih _ (applyOp_fuzzy_rounded op h)

/-- C1: for the basic-variant store, appending a record whose city and
country match an already-stored entry less than 24 hours old leaves the
stored list unchanged (so the number of entries for that city+country pair,
in particular exactly one, is preserved); when every matching stored entry
is at least 24 hours old, the record is appended, adding a second entry for
the pair (stated below the 1000-entry cap, where no truncation interferes). -/
theorem storeVisitorData_dedup_within_24h (now : Int) (stored : List Entry)
    (location : Location) :
    ((∃ v ∈ stored, v.city = location.city ∧ v.country = location.country ∧
        now - v.timestamp < 24 * 60 * 60 * 1000) →
      storeVisitorData now stored location = stored) ∧
    ((∀ v ∈ stored, v.city = location.city → v.country = location.country →
        24 * 60 * 60 * 1000 ≤ now - v.timestamp) →
      stored.length < 1000 →
      storeVisitorData now stored location = stored ++ [mkEntry location]) := by
  constructor
  · rintro ⟨v, hv, h1, h2, h3⟩
    have hdup : isDuplicate now stored (mkEntry location) = true := by
      simp only [isDuplicate, List.any_eq_true]
      exact ⟨v, hv, by simp [mkEntry, h1, h2]; omega⟩
    simp [storeVisitorData, hdup]
  · intro hall hlen
    have hdup : isDuplicate now stored (mkEntry location) = false := by
      rw [← Bool.not_eq_true]
      simp only [isDuplicate, List.any_eq_true, not_exists]
      intro v
      simp only [mkEntry, Bool.and_eq_true, beq_iff_eq, decide_eq_true_eq,
        not_and]
      intro hv h1 h2
      have := hall v hv h1 h2
      omega
    have hc : ¬((stored ++ [mkEntry location]).length > 1000) := by
      simp only [List.length_append, List.length_singleton]
      omega
    simp only [storeVisitorData, hdup, Bool.false_eq_true, if_false]
    rw [if_neg hc]

/-- Witness for C1 at a concrete input: a second `Europe/Paris` record one
millisecond later is deduplicated; one full 24-hour window later it is
appended as a second entry. -/
theorem storeVisitorData_dedup_within_24h_witness :
    storeVisitorData 6 [mkEntry parisLoc] parisLoc = [mkEntry parisLoc] ∧
    storeVisitorData (5 + 24 * 60 * 60 * 1000) [mkEntry parisLoc] parisLoc =
      [mkEntry parisLoc] ++ [mkEntry parisLoc] := by
  constructor
  · exact (storeVisitorData_dedup_within_24h 6 [mkEntry parisLoc] parisLoc).1
      ⟨mkEntry parisLoc, by simp, rfl, rfl, by norm_num [parisLoc, mkEntry]⟩
  · refine (storeVisitorData_dedup_within_24h (5 + 24 * 60 * 60 * 1000)
      [mkEntry parisLoc] parisLoc).2 ?_ (by simp)
    intro v hv h1 h2
    rcases List.mem_singleton.mp hv with rfl
    norm_num [parisLoc, mkEntry]

/-- C2: starting from an empty store, any finite sequence of appends keeps
the basic-variant list and the fuzzy-location list at 1000 entries at most,
and the truncation that enforces the cap keeps exactly the most recent
suffix of the pushed list, evicting the oldest entries first (`slice(-1000)`
is `drop (length - 1000)` in both variants). -/
theorem store_cap_1000_oldest_evicted
    (ops : List (Int × Location)) (mops : List Op) (m : Mode) (consent : Bool)
    (now : Int) (stored : List Entry) (location : Location)
    (l : List FuzzyEntry) :
    (runBasic ops []).length ≤ 1000 ∧
    (run mops (initState m consent)).data.fuzzyLocations.length ≤ 1000 ∧
    (isDuplicate now stored (mkEntry location) = false →
      storeVisitorData now stored location =
        (stored ++ [mkEntry location]).drop ((stored.length + 1) - 1000)) ∧
    capFuzzy l = l.drop (l.length - 1000) := by
  refine ⟨runBasic_length_le ops [] (by simp),
    run_fuzzy_length_le mops _ (by simp [initState, emptyVisitorData]),
    ?_, capFuzzy_eq_drop l⟩
  intro hdup
  simp only [storeVisitorData, hdup, Bool.false_eq_true, if_false]
  split
  · simp [List.length_append]
  · have h0 : stored.length + 1 - 1000 = 0 := by
      rename_i h
      simp only [List.length_append, List.length_singleton] at h
      omega
    rw [h0, List.drop_zero]

/-- Witness for C2 at a concrete input: a non-duplicate append to the empty
store is the one-element suffix (nothing is evicted below the cap). -/
theorem store_cap_1000_oldest_evicted_witness :
    isDuplicate 0 [] (mkEntry parisLoc) = false ∧
    storeVisitorData 0 [] parisLoc =
      ([] ++ [mkEntry parisLoc]).drop
        ((List.length ([] : List Entry) + 1) - 1000) := by
  exact ⟨rfl,
    (store_cap_1000_oldest_evicted [] [] Mode.country true 0 [] parisLoc
      []).2.2.1 rfl⟩

/-- C3: every timezone identifier that is a key of the `timezoneMap` table
resolves to a non-null location whose coordinates have exactly one decimal
place, and every identifier that is not a key resolves to `null`. -/
theorem timezone_resolution_rounded (tz : String) (now : Int) :
    ((timezoneMap.lookup tz).isSome = true →
      ∃ loc, getLocationFromTimezone tz now = some loc ∧
        OneDecimal loc.lat ∧ OneDecimal loc.lon) ∧
    (timezoneMap.lookup tz = none → getLocationFromTimezone tz now = none) := by
  constructor
  · intro h
    obtain ⟨info, hinfo⟩ := Option.isSome_iff_exists.mp h
    have hone := timezoneMap_oneDecimal _ (lookup_mem hinfo)
    refine ⟨{ city := info.city, country := info.country,
              countryCode := info.countryCode, lat := info.lat,
              lon := info.lon, timestamp := now,
              detectionMethod := some "timezone" }, ?_, hone.1, hone.2⟩
    simp [getLocationFromTimezone, hinfo]
  · intro h
    simp [getLocationFromTimezone, h]

/-- Witness for C3 at concrete inputs: `Europe/Paris` is a key and
resolves to a rounded location; `Atlantis/Nowhere` is not a key and
resolves to `null`. -/
theorem timezone_resolution_rounded_witness :
    (∃ loc, getLocationFromTimezone "Europe/Paris" 5 = some loc ∧
      OneDecimal loc.lat ∧ OneDecimal loc.lon) ∧
    getLocationFromTimezone "Atlantis/Nowhere" 5 = none := by
  exact ⟨(timezone_resolution_rounded "Europe/Paris" 5).1 rfl,
    (timezone_resolution_rounded "Atlantis/Nowhere" 5).2 rfl⟩

/-- C4 (code defect, evaluated at the failing input): a capture made in
ephemeral mode writes nothing to storage by itself, but because
`saveVisitorData` serializes the entire `visitorData` object, the very
next persisted capture (here: switching to `country` mode in the same
session, which re-tracks) writes the ephemeral entries into the
localStorage visitor-data blob, contradicting the documented
"memory only, never persisted" lifetime. -/
theorem ephemeral_entries_persisted_bug :
    (trackVisitor geoFR 10 (initState Mode.ephemeral true)).storedBlob =
      none ∧
    ((changeMode Mode.country geoFR 20
        (trackVisitor geoFR 10 (initState Mode.ephemeral true))).storedBlob.map
          (fun d => d.ephemeralVisitors)) =
      some [{ country := "FR", countryName := "France", city := "Paris",
              timestamp := 10 }] :=
  ⟨rfl, rfl⟩

/-- C5: every coordinate pair the program writes into persistent visitor
storage is rounded to one decimal place.  Mode-based variant: from a fresh
session, every fuzzy-location entry after any event sequence is a fixed
point of `roundTo1` (it equals `Math.round(raw*10)/10` of itself).  Basic
variant: every location the active resolution path produces is such a
fixed point, and `storeVisitorData` stores coordinates unchanged from the
resolved location, so the stored values are exactly the rounded ones. -/
theorem stored_coordinates_rounded (ops : List Op) (m : Mode) (consent : Bool)
    (tz : String) (now now2 : Int) (location : Location)
    (stored : List Entry) (e : Entry) :
    (∀ f ∈ (run ops (initState m consent)).data.fuzzyLocations,
      roundTo1 f.lat = f.lat ∧ roundTo1 f.lon = f.lon) ∧
    (getLocationFromTimezone tz now = some location →
      roundTo1 location.lat = location.lat ∧
      roundTo1 location.lon = location.lon) ∧
    (e ∈ storeVisitorData now2 stored location →
      e ∈ stored ∨ (e.lat = location.lat ∧ e.lon = location.lon)) := by
  refine ⟨run_fuzzy_rounded ops _ (by simp [initState, emptyVisitorData]),
    ?_, ?_⟩
  · intro h
    unfold getLocationFromTimezone at h
    cases hinfo : timezoneMap.lookup tz with
    | none => rw [hinfo] at h; simp at h
    | some info =>
      rw [hinfo] at h
      simp only [Option.some.injEq] at h
      subst h
      have hone := timezoneMap_oneDecimal _ (lookup_mem hinfo)
      exact ⟨roundTo1_fix hone.1, roundTo1_fix hone.2⟩
  · intro he
    simp only [storeVisitorData] at he
    split at he
    · exact Or.inl he
    · split at he
      · rcases List.mem_append.mp (List.drop_subset _ _ he) with h | h
        · exact Or.inl h
        · rcases List.mem_singleton.mp h with rfl
          exact Or.inr ⟨rfl, rfl⟩
      · rcases List.mem_append.mp he with h | h
        · exact Or.inl h
        · rcases List.mem_singleton.mp h with rfl
          exact Or.inr ⟨rfl, rfl⟩

/-- Witness for C5 at a concrete input: the `Europe/Paris` resolution is a
fixed point of the rounding, and storing it into the empty store keeps its
coordinates. -/
theorem stored_coordinates_rounded_witness :
    (roundTo1 parisLoc.lat = parisLoc.lat ∧
      roundTo1 parisLoc.lon = parisLoc.lon) ∧
    (mkEntry parisLoc ∈ ([] : List Entry) ∨
      ((mkEntry parisLoc).lat = parisLoc.lat ∧
        (mkEntry parisLoc).lon = parisLoc.lon)) := by
  have hm : storeVisitorData 0 [] parisLoc = [mkEntry parisLoc] := rfl
  exact ⟨(stored_coordinates_rounded [] Mode.country true "Europe/Paris" 5 0
      parisLoc [] (mkEntry parisLoc)).2.1 rfl,
    (stored_coordinates_rounded [] Mode.country true "Europe/Paris" 5 0
      parisLoc [] (mkEntry parisLoc)).2.2
      (hm ▸ List.mem_singleton.mpr rfl)⟩

/-- C6: the privacy-mode state machine.  Entering `disabled` clears the
per-session tracking flag and performs no capture (data and blob are
untouched); while the mode is `disabled`, `trackCurrentVisitor` is a
no-op.  Leaving to any active mode (with consent) re-arms the session:
the transition equals clearing the flag and re-running the tracker, and
afterwards the session flag is set (a capture happened).  When the session
flag is still set, `trackCurrentVisitor` does not duplicate a tracking
event. -/
theorem privacy_mode_transitions (s : MapState) (data : GeoData) (now : Int)
    (m : Mode) :
    ((changeMode Mode.disabled data now s).sessionTracked = false) ∧
    ((changeMode Mode.disabled data now s).data = s.data ∧
      (changeMode Mode.disabled data now s).storedBlob = s.storedBlob) ∧
    (s.mode = Mode.disabled → trackVisitor data now s = s) ∧
    (m ≠ Mode.disabled → s.hasConsent = true →
      changeMode m data now s =
        trackVisitor data now
          { s with mode := m, storedMode := some m,
                   sessionTracked := false } ∧
      (changeMode m data now s).sessionTracked = true) ∧
    (s.sessionTracked = true → trackVisitor data now s = s) := by
  refine ⟨by simp [changeMode], ⟨by simp [changeMode], by simp [changeMode]⟩,
    ?_, ?_, ?_⟩
  · intro h
    unfold trackVisitor
    rw [if_pos (Or.inl h)]
  · intro hm hc
    constructor
    · simp [changeMode, hm, hc]
    · cases m with
      | disabled => exact absurd rfl hm
      | country =>
        simp [changeMode, trackVisitor, hc, trackCountryOnly, saveVisitorData]
      | fuzzy =>
        simp [changeMode, trackVisitor, hc, trackFuzzyLocation,
          saveVisitorData]
      | ephemeral => simp [changeMode, trackVisitor, hc, trackEphemeral]
  · intro h
    simp [trackVisitor, h]

/-- Witness for C6 at concrete inputs: the disabled-mode no-op, the
re-arming transition to `country`, and the already-tracked no-op. -/
theorem privacy_mode_transitions_witness :
    (trackVisitor geoFR 0 (initState Mode.disabled true) =
      initState Mode.disabled true) ∧
    (changeMode Mode.country geoFR 0 (initState Mode.country true) =
      trackVisitor geoFR 0
        { (initState Mode.country true) with
          mode := Mode.country
          storedMode := some Mode.country
          sessionTracked := false } ∧
      (changeMode Mode.country geoFR 0
        (initState Mode.country true)).sessionTracked = true) ∧
    (trackVisitor geoFR 0
        { (initState Mode.country true) with sessionTracked := true } =
      { (initState Mode.country true) with sessionTracked := true }) :=
  ⟨(privacy_mode_transitions (initState Mode.disabled true) geoFR 0
      Mode.country).2.2.1 rfl,
   (privacy_mode_transitions (initState Mode.country true) geoFR 0
      Mode.country).2.2.2.1 (by decide) rfl,
   (privacy_mode_transitions
      { (initState Mode.country true) with sessionTracked := true } geoFR 0
      Mode.country).2.2.2.2 rfl⟩

/-- C7: while consent is false, `trackCurrentVisitor` performs no capture
in any mode (the whole state, visitor data and storage included, is
unchanged); `rejectCookies` sets the mode to `disabled` and persists both
the consent refusal and the disabled mode choice, touching neither the
in-memory data nor the visitor-data blob. -/
theorem consent_gating_and_reject (s : MapState) (data : GeoData)
    (now : Int) :
    (s.hasConsent = false → trackVisitor data now s = s) ∧
    ((rejectCookies s).mode = Mode.disabled ∧
      (rejectCookies s).hasConsent = false ∧
      (rejectCookies s).storedConsent = some false ∧
      (rejectCookies s).storedMode = some Mode.disabled ∧
      (rejectCookies s).data = s.data ∧
      (rejectCookies s).storedBlob = s.storedBlob) := by
  constructor
  · intro h
    unfold trackVisitor
    rw [if_pos (Or.inr h)]
  · exact ⟨rfl, rfl, rfl, rfl, rfl, rfl⟩

/-- Witness for C7 at a concrete input: with consent withheld, tracking in
`country` mode changes nothing. -/
theorem consent_gating_and_reject_witness :
    trackVisitor geoFR 0 (initState Mode.country false) =
      initState Mode.country false :=
  (consent_gating_and_reject (initState Mode.country false) geoFR 0).1 rfl

/-- C8 counterexample: in the basic variant, a stored string that parses
successfully but is not an array (for example the blob `"{}"`) is returned
as-is by `getStoredData` - it is neither reset to the empty default nor a
well-formed entry list, so "for every stored string ... load returns or
installs a well-formed structure" fails on the code. -/
theorem getStoredData_nonarray_counterexample :
    getStoredData (some (BParse.ok BJson.other)) = BJson.other ∧
    BJson.other ≠ BJson.arr [] :=
  ⟨rfl, fun h => BJson.noConfusion h⟩

/-- C8 as amended: loading never propagates an error, but the self-healing
reach differs per variant.  The mode-based `loadVisitorData` yields a fully
populated structure for every outcome: absent data keeps the (empty)
previous value, a parse failure or a parsed non-object resets to the empty
default, and a parsed object has each missing collection installed as
empty.  The basic variant's `getStoredData` returns the empty list exactly
when the data is absent or unparseable; a successfully parsed blob is
returned unchanged, even when it is not an array. -/
theorem load_self_healing_amended (prev : VisitorData)
    (c : Option (List CountryAgg)) (f : Option (List FuzzyEntry))
    (e : Option (List EphemeralEntry)) (j : BJson) :
    loadVisitorData prev (some MParse.err) = emptyVisitorData ∧
    loadVisitorData prev (some MParse.prim) = emptyVisitorData ∧
    loadVisitorData prev none = prev ∧
    loadVisitorData prev (some (MParse.obj c f e)) =
      { countries := c.getD [], fuzzyLocations := f.getD [],
        ephemeralVisitors := e.getD [] } ∧
    getStoredData none = BJson.arr [] ∧
    getStoredData (some BParse.err) = BJson.arr [] ∧
    getStoredData (some (BParse.ok j)) = j :=
  ⟨rfl, rfl, rfl, rfl, rfl, rfl, rfl⟩

/-- C9: a fuzzy-mode capture appends the rounded-coordinate entry to the
fuzzy-location list (capped at 1000) and also increments the persisted
country counter for the visitor's country code, exactly as a country-mode
capture does; on the first occurrence of a code the aggregate is created
with count 1 and the resolved name. -/
theorem fuzzy_and_country_increment (data : GeoData) (now : Int)
    (s : MapState) :
    ((trackFuzzyLocation data now s).data.fuzzyLocations =
      capFuzzy (s.data.fuzzyLocations ++ [fuzzyEntryOf data now])) ∧
    (countOf (trackFuzzyLocation data now s).data.countries
        (countryCodeOf data) =
      countOf s.data.countries (countryCodeOf data) + 1) ∧
    (countOf (trackCountryOnly data s).data.countries (countryCodeOf data) =
      countOf s.data.countries (countryCodeOf data) + 1) ∧
    (s.data.countries.find? (fun c => c.code == countryCodeOf data) = none →
      (trackFuzzyLocation data now s).data.countries.find?
          (fun c => c.code == countryCodeOf data) =
        some { code := countryCodeOf data,
               name := countryNameOf (countryCodeOf data), count := 1 }) := by
  refine ⟨rfl, ?_, ?_, ?_⟩
  · exact countOf_bump s.data.countries (countryCodeOf data)
      (countryNameOf (countryCodeOf data))
  · exact countOf_bump s.data.countries (countryCodeOf data)
      (countryNameOf (countryCodeOf data))
  · intro h
    exact find?_bump_of_none (countryNameOf (countryCodeOf data)) h

/-- Witness for C9 at a concrete input: tracking the first `FR` visitor in
a fresh session creates the `FR` aggregate with count 1. -/
theorem fuzzy_and_country_increment_witness :
    (initState Mode.fuzzy true).data.countries.find?
        (fun c => c.code == countryCodeOf geoFR) = none ∧
    (trackFuzzyLocation geoFR 7
        (initState Mode.fuzzy true)).data.countries.find?
        (fun c => c.code == countryCodeOf geoFR) =
      some { code := countryCodeOf geoFR,
             name := countryNameOf (countryCodeOf geoFR), count := 1 } :=
  ⟨rfl,
   (fuzzy_and_country_increment geoFR 7 (initState Mode.fuzzy true)).2.2.2 rfl⟩

/-- C10: the public `getStats` computes its totals from the persisted
country aggregates whatever the current mode is, while `updateUI` computes
the displayed totals from the in-memory ephemeral list when the mode is
`ephemeral`; at the concrete state with one ephemeral visitor and no
persisted aggregates the two disagree. -/
theorem getStats_mode_independent_but_ui_diverges (s : MapState) (m : Mode) :
    ((getStats { s with mode := m }).totalVisitors =
        (s.data.countries.map (fun c => c.count)).sum ∧
      (getStats { s with mode := m }).uniqueCountries =
        s.data.countries.length) ∧
    (uiTotals ephDivergeState ≠
      ((getStats ephDivergeState).totalVisitors,
        (getStats ephDivergeState).uniqueCountries)) := by
  refine ⟨⟨rfl, rfl⟩, by decide⟩
